import Mathlib

/-!
Verification of the RealPNL Telegram bot (`src/main.py`) via a shallow
embedding.  Handlers are modelled as pure functions from their inputs
(message text, environment variables, the outcome of the single external
lookup) to the ordered list of observable effects they perform: outbound
replies, external chat lookups, log lines, and callback acknowledgements.
Python string operations (`split(maxsplit=1)`, `strip`, `lower`,
`capitalize`, slicing, substring test, truthiness of strings) are embedded
faithfully for the character data the bot manipulates.
-/

namespace RealPNL

/-- Python `str.isspace` characters, restricted to the ASCII whitespace the
bot's inputs contain (`str.split`/`str.strip` with no argument split on
these). -/
def pyIsSpace (c : Char) : Bool :=
  c = ' ' || c = '\t' || c = '\n' || c = '\r' || c = '\x0b' || c = '\x0c'

/-- Python `s.strip()`: remove leading and trailing whitespace. -/
def pyStrip (s : String) : String :=
  String.mk (((s.data.dropWhile pyIsSpace).reverse.dropWhile pyIsSpace).reverse)

/-- Python `s.split(maxsplit=1)` (whitespace separator): leading whitespace
is skipped; the first element is the first whitespace-free token; the
second element, present only when something non-whitespace follows, is the
remainder of the string with the separating whitespace run removed. -/
def pySplitMax1 (s : String) : List String :=
  let l := s.data.dropWhile pyIsSpace
  if l.isEmpty then []
  else
    let tok := l.takeWhile (fun c => !pyIsSpace c)
    let rest := (l.dropWhile (fun c => !pyIsSpace c)).dropWhile pyIsSpace
    if rest.isEmpty then [String.mk tok] else [String.mk tok, String.mk rest]

/-- Python `s.lower()` (ASCII range, which covers the provider's error
texts). -/
def pyLower (s : String) : String := String.mk (s.data.map Char.toLower)

/-- Python `s.capitalize()` (ASCII range): first character upper-cased,
the rest lower-cased. -/
def pyCapitalize (s : String) : String :=
  match s.data with
  | [] => ""
  | c :: cs => String.mk (c.toUpper :: cs.map Char.toLower)

/-- `needle in hay` on character lists: some suffix of `hay` starts with
`needle`. -/
def listContains (needle : List Char) : List Char → Bool
  | [] => needle.isEmpty
  | c :: t => needle.isPrefixOf (c :: t) || listContains needle t

/-- Python `needle in hay` for strings. -/
def strContains (hay needle : String) : Bool := listContains needle.data hay.data

/-- Python `s.startswith(p)`. -/
def pyStartsWith (s p : String) : Bool := p.data.isPrefixOf s.data

/-- Python slicing `s[n:]` (character based). -/
def pyDropLeft (s : String) (n : Nat) : String := String.mk (s.data.drop n)

/-- Python slicing `s[:n]` (character based). -/
def pyTake (s : String) (n : Nat) : String := String.mk (s.data.take n)

/-- Python `os.getenv(name, default)`: the environment value when the
variable is set (possibly to the empty string), otherwise the default. -/
def osGetenv (env : Option String) (dflt : String) : String := env.getD dflt

/-- A chat object as returned by the external lookup (`bot.get_chat`):
the fields `cmd_verify` reads.  Each is optional and may also be an empty
string, mirroring the Python truthiness tests in the handler. -/
structure Chat where
  type : Option String
  title : Option String
  description : Option String
deriving DecidableEq, Repr

/-- One inline keyboard button: its label and either a web-app URL or a
callback-data identifier. -/
structure Button where
  text : String
  webAppUrl : Option String
  callbackData : Option String
deriving DecidableEq, Repr

/-- An observable effect of a handler, in the order performed: a plain
text reply, a reply carrying an inline keyboard, the external
`bot.get_chat` call with its argument, a `logger.error` line, or a
`callback.answer()` acknowledgement. -/
inductive Effect where
  | reply (text : String)
  | replyMarkup (text : String) (keyboard : List (List Button))
  | getChat (ident : String)
  | logError (text : String)
  | callbackAnswer
deriving DecidableEq, Repr

/-- The texts of the plain replies in an effect list, in order.  (The
verify handler sends only plain replies.) -/
def replyTexts : List Effect → List String
  | [] => []
  | Effect.reply s :: t => s :: replyTexts t
  | _ :: t => replyTexts t

/-- The texts of the `logger.error` lines in an effect list, in order. -/
def logTexts : List Effect → List String
  | [] => []
  | Effect.logError s :: t => s :: logTexts t
  | _ :: t => logTexts t

/-- The arguments of the external `bot.get_chat` calls in an effect list,
in order. -/
def getChatArgs : List Effect → List String
  | [] => []
  | Effect.getChat s :: t => s :: getChatArgs t
  | _ :: t => getChatArgs t

/-- The text of the first plain reply, if any. -/
def firstReplyText (es : List Effect) : Option String := (replyTexts es).head?

/-! ## Message texts (verbatim from `src/main.py`) -/

/-- Default value of the `MINI_APP_URL` environment variable in the
handlers. -/
def miniAppDefault : String := "https://logiccrafterdz.github.io/realpnl/"

/-- The configuration-error reply of `cmd_start`. -/
def configErrorMsg : String := "⚠️ Configuration error: MINI_APP_URL not set."

/-- The welcome text of `cmd_start`. -/
def welcomeText : String :=
  "\n🔍 <b>Welcome to RealPNL</b>\n\nThe privacy-first crypto trade analyzer.\n\n<b>What I can do:</b>\n📊 Analyze your trade history (CSV upload)\n📈 Calculate real P&L after fees\n🔄 Compare trading vs HODL returns\n✅ Verify bot/channel activity\n\n<i>🔒 All your trade data stays on your device. \nI never see or store your trades.</i>\n\nChoose an action below:\n"

/-- The three-row inline keyboard of `cmd_start`. -/
def startKeyboard (url : String) : List (List Button) :=
  [[Button.mk "📊 Upload CSV" (some url) none],
   [Button.mk "✅ Verify Bot/Channel" none (some "verify_help")],
   [Button.mk "❓ Help" none (some "help")]]

/-- The reply text of `cmd_upload`. -/
def uploadText : String :=
  "📊 <b>Upload Trade History</b>\n\nClick the button below to open the analyzer and upload your CSV file.\n\n<i>Required columns: date, symbol, action, price, amount</i>"

/-- The one-button keyboard of `cmd_upload`. -/
def uploadKeyboard (url : String) : List (List Button) :=
  [[Button.mk "📊 Open Trade Analyzer" (some url) none]]

/-- The reply text of `cmd_report`. -/
def reportText : String :=
  "📊 <b>Your Report</b>\n\nIf you have previously uploaded trades, your report is saved locally in the Mini App.\n\nClick below to view:"

/-- The one-button keyboard of `cmd_report`. -/
def reportKeyboard (url : String) : List (List Button) :=
  [[Button.mk "📊 Open Report" (some url) none]]

/-- The usage reply of `cmd_verify` when no argument is supplied. -/
def usageMsg : String :=
  "⚠️ <b>Usage:</b> <code>/verify @username</code>\n\nExample: <code>/verify @dexscreener</code>"

/-- The acknowledgement reply of `cmd_verify`. -/
def checkingMsg (username : String) : String := "🔍 Checking @" ++ username ++ "..."

/-- The "cannot verify" reply of `cmd_verify` (the \x22chat not found\x22 /
\x22bad request\x22 branch). -/
def cannotVerifyMsg (username : String) : String :=
  "❌ <b>Cannot verify @" ++ username ++ "</b>\n\nPossible reasons:\n• Username doesn\x27t exist\n• Channel/bot is private\n• Username is misspelled"

/-- The generic "error checking" reply of `cmd_verify`. -/
def errorCheckingMsg (username : String) : String :=
  "⚠️ <b>Error checking @" ++ username ++ "</b>\n\nPrivate channels and bots cannot be verified.\nOnly public channels are supported."

/-- The `logger.error` line of `cmd_verify` on a generic failure. -/
def verifyLogMsg (username e : String) : String :=
  "Error verifying " ++ username ++ ": " ++ e

/-- The help text of `send_help`. -/
def helpText : String :=
  "\n📚 <b>RealPNL Help</b>\n\n<b>Commands:</b>\n/start - Welcome & main menu\n/upload - Upload CSV trade history\n/verify @username - Check bot/channel activity\n/report - View your saved report\n/help - Show this help\n\n<b>CSV Format:</b>\nYour file should have these columns:\n• <code>date</code> - Trade timestamp (YYYY-MM-DD HH:MM:SS)\n• <code>symbol</code> - Token symbol (BTC, ETH, PEPE, etc.)\n• <code>action</code> - buy or sell\n• <code>price</code> - Price in USD\n• <code>amount</code> - Quantity traded\n• <code>fee_usd</code> - (Optional) Fee in USD\n\n<b>Privacy:</b>\n🔒 All trade data is processed in your browser\n🔒 Nothing is sent to our servers\n🔒 Reports are encrypted with your password\n\n<b>Need help?</b>\nContact @your_support_username\n"

/-- The reply text of `callback_verify_help`. -/
def verifyHelpText : String :=
  "✅ <b>How to Verify a Bot/Channel</b>\n\nUse the command:\n<code>/verify @username</code>\n\nExamples:\n• <code>/verify @dexscreener</code>\n• <code>/verify @whale_alert</code>\n\n<i>Only public channels can be verified.</i>"

/-! ## Handlers -/

/-- `cmd_start`: reads `MINI_APP_URL` (defaulted), replies with the
configuration error if the resulting URL is falsy (empty), otherwise with
the welcome text and the three-button keyboard. -/
def cmd_start (env : Option String) : List Effect :=
  if osGetenv env miniAppDefault = "" then
    [Effect.reply configErrorMsg]
  else
    [Effect.replyMarkup welcomeText (startKeyboard (osGetenv env miniAppDefault))]

/-- `cmd_upload`: always replies with the upload text and its one-button
keyboard; the URL value is never checked. -/
def cmd_upload (env : Option String) : List Effect :=
  [Effect.replyMarkup uploadText (uploadKeyboard (osGetenv env miniAppDefault))]

/-- `cmd_report`: always replies with the report text and its one-button
keyboard; the URL value is never checked. -/
def cmd_report (env : Option String) : List Effect :=
  [Effect.replyMarkup reportText (reportKeyboard (osGetenv env miniAppDefault))]

/-- `send_help`: the single content-producing help routine. -/
def send_help : List Effect := [Effect.reply helpText]

/-- `cmd_help` (the `/help` command): delegates to `send_help`. -/
def cmd_help : List Effect := send_help

/-- `callback_help` (the "help" button): delegates to `send_help`, then
acknowledges the callback. -/
def callback_help : List Effect := send_help ++ [Effect.callbackAnswer]

/-- `callback_verify_help` (the "verify_help" button): sends its own
verify-instructions text, then acknowledges the callback. -/
def callback_verify_help : List Effect :=
  [Effect.reply verifyHelpText, Effect.callbackAnswer]

/-- The `Type:` field of the verification report:
`chat_type.capitalize() if chat_type else 'Unknown'`. -/
def typeStr (t : Option String) : String :=
  match t with
  | none => "Unknown"
  | some s => if s = "" then "Unknown" else pyCapitalize s

/-- The `Title:` field of the verification report: `chat.title or 'N/A'`. -/
def titleStr (t : Option String) : String :=
  match t with
  | none => "N/A"
  | some s => if s = "" then "N/A" else s

/-- The optional `Bio:` line of the verification report: present only when
`chat.description` is truthy (non-`None` and non-empty); text longer than
100 characters is cut to its first 100 characters plus "...". -/
def descLine (chat : Chat) : String :=
  match chat.description with
  | none => ""
  | some d =>
    if d = "" then ""
    else
      "📝 Bio: <i>" ++ (if d.length > 100 then pyTake d 100 ++ "..." else d) ++ "</i>\n"

/-- The head of the verification report, up to and excluding the optional
bio line.  The chat object is truthy, so the status is always
"✅ Active" on the success path. -/
def reportHeader (username : String) (chat : Chat) : String :=
  "\n📊 <b>Verification Report: @" ++ username ++ "</b>\n\n✅ Active\n📌 Type: "
    ++ typeStr chat.type ++ "\n👥 Title: " ++ titleStr chat.title ++ "\n"

/-- The fixed tail of the verification report. -/
def reportFooter : String :=
  "\n🔍 <b>Public Alerts:</b> None detected\n\n<i>ℹ️ Note: Full message history requires channel admin access.</i>\n"

/-- The full verification report sent on a successful lookup. -/
def verifyReport (username : String) (chat : Chat) : String :=
  reportHeader username chat ++ descLine chat ++ reportFooter

/-- The normalized username of a `/verify` message: the remainder after
the command keyword (`args[1]`), stripped of surrounding whitespace, with
one leading `@` removed when present. -/
def verifyUsername (text : String) : String :=
  let u := pyStrip ((pySplitMax1 text).getD 1 "")
  if pyStartsWith u "@" then pyDropLeft u 1 else u

/-- `cmd_verify`: the full verify handler.  `text` is `message.text`; `lk`
is the outcome of the single `bot.get_chat` call (the stringified
exception on failure), which the handler performs exactly once whenever an
argument is present. -/
def cmd_verify (text : String) (lk : Except String Chat) : List Effect :=
  if (pySplitMax1 text).length < 2 then
    [Effect.reply usageMsg]
  else
    Effect.reply (checkingMsg (verifyUsername text)) ::
    Effect.getChat ("@" ++ verifyUsername text) ::
    match lk with
    | Except.ok chat => [Effect.reply (verifyReport (verifyUsername text) chat)]
    | Except.error e =>
      if strContains (pyLower e) "chat not found" || strContains (pyLower e) "bad request" then
        [Effect.reply (cannotVerifyMsg (verifyUsername text))]
      else
        [Effect.logError (verifyLogMsg (verifyUsername text) e),
         Effect.reply (errorCheckingMsg (verifyUsername text))]

/-- The health-check HTTP response: status code, optional content-type
header, body. -/
structure HttpResponse where
  status : Nat
  contentType : Option String
  body : String
deriving DecidableEq, Repr

/-- `HealthCheckHandler.do_GET`: `/health` gets 200 `text/plain` `OK`;
every other path gets 404 with no body. -/
def do_GET (path : String) : HttpResponse :=
  if path = "/health" then
    { status := 200, contentType := some "text/plain", body := "OK" }
  else
    { status := 404, contentType := none, body := "" }

/-! ## General shape of a `cmd_verify` run that reaches the lookup -/

/-- Whenever an argument is present, `cmd_verify` first sends the
acknowledgement, then performs the one external lookup, and the remaining
effects contain no further lookup and exactly one further reply. -/
theorem cmd_verify_shape (text : String) (lk : Except String Chat)
    (h : ¬ (pySplitMax1 text).length < 2) :
    ∃ rest, cmd_verify text lk =
        Effect.reply (checkingMsg (verifyUsername text)) ::
        Effect.getChat ("@" ++ verifyUsername text) :: rest ∧
      getChatArgs rest = [] ∧ (replyTexts rest).length = 1 := by
  unfold cmd_verify
  rw [if_neg h]
  cases lk with
  | ok chat => exact ⟨_, rfl, rfl, rfl⟩
  | error e =>
    refine ⟨_, rfl, ?_, ?_⟩ <;>
      by_cases hc :
        (strContains (pyLower e) "chat not found" || strContains (pyLower e) "bad request")
          = true <;>
      simp [hc, getChatArgs, replyTexts]

/-! ## Claim theorems -/

/-- C3: if the message text holds no argument after the command keyword,
`cmd_verify` sends exactly the usage reply and performs zero external
lookup calls, whatever the lookup would have returned. -/
theorem verify_no_arg_usage_only (text : String) (lk : Except String Chat)
    (h : (pySplitMax1 text).length < 2) :
    cmd_verify text lk = [Effect.reply usageMsg] ∧
      getChatArgs (cmd_verify text lk) = [] := by
  unfold cmd_verify
  rw [if_pos h]
  exact ⟨rfl, rfl⟩

/-- Witness for C3: the bare message `/verify` yields only the usage reply
and no lookup. -/
theorem verify_no_arg_usage_only_witness :
    cmd_verify "/verify" (Except.error "irrelevant") = [Effect.reply usageMsg] ∧
      getChatArgs (cmd_verify "/verify" (Except.error "irrelevant")) = [] :=
  verify_no_arg_usage_only "/verify" (Except.error "irrelevant") (by decide)

/-- C8: a GET for the exact path `/health` answers 200 with plain-text
body `OK`; a GET for any other path answers 404 with an empty body. -/
theorem health_endpoint_responses (path : String) :
    do_GET "/health" = { status := 200, contentType := some "text/plain", body := "OK" } ∧
      (path ≠ "/health" →
        do_GET path = { status := 404, contentType := none, body := "" }) := by
  refine ⟨rfl, fun hne => ?_⟩
  unfold do_GET
  rw [if_neg hne]

/-- Witness for C8: the path `/anything-else` gets the 404 response. -/
theorem health_endpoint_responses_witness :
    do_GET "/anything-else" = { status := 404, contentType := none, body := "" } :=
  (health_endpoint_responses "/anything-else").2 (by decide)

/-- C9: on the message `/verify @` the handler does not send the usage
reply; the single `@` is stripped leaving the empty username, the
acknowledgement reads `🔍 Checking @...`, and the external lookup is
performed with the literal string `@`. -/
theorem verify_lone_at_sign (lk : Except String Chat) :
    cmd_verify "/verify @" lk ≠ [Effect.reply usageMsg] ∧
      verifyUsername "/verify @" = "" ∧
      firstReplyText (cmd_verify "/verify @" lk) = some "🔍 Checking @..." ∧
      getChatArgs (cmd_verify "/verify @" lk) = ["@"] := by
  obtain ⟨rest, hshape, hg, -⟩ :=
    cmd_verify_shape "/verify @" lk (by decide)
  rw [hshape]
  refine ⟨by simp, by decide, ?_, ?_⟩
  · show some (checkingMsg (verifyUsername "/verify @")) = some "🔍 Checking @..."
    decide
  · show ("@" ++ verifyUsername "/verify @") :: getChatArgs rest = ["@"]
    rw [hg]
    decide

/-- C1: on a lookup failure, if the lower-cased stringified error contains
`chat not found` or `bad request`, the handler replies with the "cannot
verify" variant and logs nothing; on every other failure it replies with
the generic "error checking" variant and logs the identifier and the error
detail. -/
theorem verify_failure_classification (text e : String)
    (h : 2 ≤ (pySplitMax1 text).length) :
    ((strContains (pyLower e) "chat not found" || strContains (pyLower e) "bad request")
        = true →
      replyTexts (cmd_verify text (Except.error e)) =
          [checkingMsg (verifyUsername text), cannotVerifyMsg (verifyUsername text)] ∧
        logTexts (cmd_verify text (Except.error e)) = []) ∧
    ((strContains (pyLower e) "chat not found" || strContains (pyLower e) "bad request")
        = false →
      replyTexts (cmd_verify text (Except.error e)) =
          [checkingMsg (verifyUsername text), errorCheckingMsg (verifyUsername text)] ∧
        logTexts (cmd_verify text (Except.error e)) =
          [verifyLogMsg (verifyUsername text) e]) := by
  unfold cmd_verify
  rw [if_neg (by omega)]
  constructor <;> intro hc <;> simp [hc, replyTexts, logTexts]

/-- Witness for C1: a `Bad Request: chat not found` failure on
`/verify @nosuch` produces the "cannot verify" reply and no log line. -/
theorem verify_failure_classification_witness :
    replyTexts (cmd_verify "/verify @nosuch"
        (Except.error "Telegram server says - Bad Request: chat not found")) =
      [checkingMsg "nosuch", cannotVerifyMsg "nosuch"] ∧
    logTexts (cmd_verify "/verify @nosuch"
        (Except.error "Telegram server says - Bad Request: chat not found")) = [] := by
  have h := (verify_failure_classification "/verify @nosuch"
    "Telegram server says - Bad Request: chat not found" (by decide)).1 (by decide)
  have hu : verifyUsername "/verify @nosuch" = "nosuch" := by decide
  rw [hu] at h
  exact h

/-- C2 counterexample: the claim says a returned description of length at
most 100 is rendered unmodified, but for a present-yet-empty description
(length 0 ≤ 100) the code's truthiness test omits the bio line entirely:
the report contains no `📝 Bio:` line at all. -/
theorem verify_desc_empty_counterexample :
    (Chat.mk (some "channel") (some "Title") (some "")).description = some "" ∧
    ("" : String).length ≤ 100 ∧
    descLine (Chat.mk (some "channel") (some "Title") (some "")) = "" ∧
    strContains
        (verifyReport "name" (Chat.mk (some "channel") (some "Title") (some "")))
        "📝 Bio:" = false := by
  decide

/-- C2 amended: the report is header, then the bio line, then the fixed
footer; a description longer than 100 characters is cut to its first 100
characters plus `...`; a non-empty description of length at most 100 is
rendered unmodified; an absent or empty description omits the bio line
entirely. -/
theorem verify_desc_truncation (u : String) (chat : Chat) :
    verifyReport u chat = reportHeader u chat ++ descLine chat ++ reportFooter ∧
    (chat.description = none → descLine chat = "") ∧
    (chat.description = some "" → descLine chat = "") ∧
    (∀ d : String, chat.description = some d → 100 < d.length →
      descLine chat = "📝 Bio: <i>" ++ (pyTake d 100 ++ "...") ++ "</i>\n") ∧
    (∀ d : String, chat.description = some d → d ≠ "" → d.length ≤ 100 →
      descLine chat = "📝 Bio: <i>" ++ d ++ "</i>\n") := by
  refine ⟨rfl, ?_, ?_, ?_, ?_⟩
  · intro hd; simp [descLine, hd]
  · intro hd; simp [descLine, hd]
  · intro d hd hlen
    have hne : ¬ d = "" := by
      intro he
      subst he
      exact absurd hlen (by decide)
    simp only [descLine, hd]
    rw [if_neg hne, if_pos hlen]
  · intro d hd hne hlen
    simp only [descLine, hd]
    rw [if_neg hne, if_neg (by omega)]

/-- A 120-character description used to exercise the truncation branch. -/
def longDesc : String := String.mk (List.replicate 120 'a')

/-- Witness for the amended C2: a 120-character description is rendered as
its first 100 characters plus `...`. -/
theorem verify_desc_truncation_witness :
    descLine (Chat.mk (some "channel") (some "DexScreener") (some longDesc)) =
      "📝 Bio: <i>" ++ (pyTake longDesc 100 ++ "...") ++ "</i>\n" :=
  (verify_desc_truncation "dexscreener"
      (Chat.mk (some "channel") (some "DexScreener") (some longDesc))).2.2.2.1
    longDesc rfl (by decide)

/-- C4: the external lookup receives `@` prepended to the normalized
username; the normalization removes exactly one leading `@` from the
stripped argument when present (`@@name` normalizes to `@name`, `@name`
to `name`) and leaves arguments without a leading `@` unchanged. -/
theorem verify_at_stripping (text : String) (lk : Except String Chat)
    (h : 2 ≤ (pySplitMax1 text).length) :
    getChatArgs (cmd_verify text lk) = ["@" ++ verifyUsername text] ∧
    (pyStartsWith (pyStrip ((pySplitMax1 text).getD 1 "")) "@" = true →
      verifyUsername text = pyDropLeft (pyStrip ((pySplitMax1 text).getD 1 "")) 1) ∧
    (pyStartsWith (pyStrip ((pySplitMax1 text).getD 1 "")) "@" = false →
      verifyUsername text = pyStrip ((pySplitMax1 text).getD 1 "")) ∧
    verifyUsername "/verify @@name" = "@name" ∧
    verifyUsername "/verify @name" = "name" := by
  obtain ⟨rest, hshape, hg, -⟩ := cmd_verify_shape text lk (by omega)
  refine ⟨?_, ?_, ?_, by decide, by decide⟩
  · rw [hshape]
    show ("@" ++ verifyUsername text) :: getChatArgs rest = _
    rw [hg]
  · intro hs
    simp only [verifyUsername]
    rw [if_pos hs]
  · intro hs
    simp only [verifyUsername]
    rw [if_neg (by rw [hs]; exact Bool.false_ne_true)]

/-- Witness for C4: `/verify @@name` looks up the literal `@@name` (one
`@` stripped, one re-added), and the normalization took the
strip-one-`@` branch. -/
theorem verify_at_stripping_witness :
    getChatArgs (cmd_verify "/verify @@name" (Except.error "e")) = ["@@name"] ∧
    verifyUsername "/verify @@name" =
      pyDropLeft (pyStrip ((pySplitMax1 "/verify @@name").getD 1 "")) 1 := by
  have h := verify_at_stripping "/verify @@name" (Except.error "e") (by decide)
  refine ⟨?_, h.2.1 (by decide)⟩
  rw [h.1]
  decide

/-- C5: every `/verify` invocation that reaches the lookup sends exactly
two replies (acknowledgement then report on success, acknowledgement then
error message on failure) and makes exactly one external call; the
embedding has no state-writing effect, mirroring that the handler writes
no local state. -/
theorem verify_two_replies_one_call (text : String) (lk : Except String Chat)
    (h : 2 ≤ (pySplitMax1 text).length) :
    (replyTexts (cmd_verify text lk)).length = 2 ∧
    (getChatArgs (cmd_verify text lk)).length = 1 := by
  obtain ⟨rest, hshape, hg, hr⟩ := cmd_verify_shape text lk (by omega)
  rw [hshape]
  constructor
  · simp [replyTexts, hr]
  · simp [getChatArgs, hg]

/-- Witness for C5: a successful `/verify @dexscreener` run has two
replies and one lookup. -/
theorem verify_two_replies_one_call_witness :
    (replyTexts (cmd_verify "/verify @dexscreener"
        (Except.ok (Chat.mk (some "channel") (some "DexScreener") none)))).length = 2 ∧
    (getChatArgs (cmd_verify "/verify @dexscreener"
        (Except.ok (Chat.mk (some "channel") (some "DexScreener") none)))).length = 1 :=
  verify_two_replies_one_call "/verify @dexscreener"
    (Except.ok (Chat.mk (some "channel") (some "DexScreener") none)) (by decide)

/-- C10: the lookup identifier is the entire remainder of the message
after the command keyword, whitespace-trimmed and with at most one leading
`@` removed — internal whitespace is preserved, no single-token validation
exists; e.g. `/verify @foo bar baz` looks up `@foo bar baz`. -/
theorem verify_whole_remainder (text : String) (lk : Except String Chat)
    (h : 2 ≤ (pySplitMax1 text).length) :
    getChatArgs (cmd_verify text lk) = ["@" ++ verifyUsername text] ∧
    pySplitMax1 "/verify @foo bar baz" = ["/verify", "@foo bar baz"] ∧
    verifyUsername "/verify @foo bar baz" = "foo bar baz" ∧
    getChatArgs (cmd_verify "/verify @foo bar baz" lk) = ["@foo bar baz"] := by
  obtain ⟨rest, hshape, hg, -⟩ := cmd_verify_shape text lk (by omega)
  obtain ⟨rest2, hshape2, hg2, -⟩ :=
    cmd_verify_shape "/verify @foo bar baz" lk (by decide)
  refine ⟨?_, by decide, by decide, ?_⟩
  · rw [hshape]
    show ("@" ++ verifyUsername text) :: getChatArgs rest = _
    rw [hg]
  · rw [hshape2]
    show ("@" ++ verifyUsername "/verify @foo bar baz") :: getChatArgs rest2 = _
    rw [hg2]
    decide

/-- Witness for C10: the multi-token argument reaches the lookup whole. -/
theorem verify_whole_remainder_witness :
    getChatArgs (cmd_verify "/verify @foo bar baz" (Except.error "e")) =
      ["@foo bar baz"] :=
  (verify_whole_remainder "/verify @foo bar baz" (Except.error "e") (by decide)).2.2.2

/-- C6 counterexample: with the URL configured to the empty string (the
only way `os.getenv` with a non-empty default yields a falsy URL), the
upload and report handlers still send their normal menus — they never
send the configuration-error reply; only the start handler does. -/
theorem static_handlers_counterexample :
    cmd_upload (some "") =
      [Effect.replyMarkup uploadText [[Button.mk "📊 Open Trade Analyzer" (some "") none]]] ∧
    cmd_upload (some "") ≠ [Effect.reply configErrorMsg] ∧
    cmd_report (some "") =
      [Effect.replyMarkup reportText [[Button.mk "📊 Open Report" (some "") none]]] ∧
    cmd_report (some "") ≠ [Effect.reply configErrorMsg] ∧
    cmd_start (some "") = [Effect.reply configErrorMsg] := by
  decide

/-- C6 amended: only the start handler checks the URL — with an empty URL
it replies with the configuration-error message instead of its menu, and
with a non-empty URL it sends the normal welcome menu; the upload and
report handlers unconditionally send their normal menus whatever the URL
value. -/
theorem static_handlers_url_check (env : Option String) :
    cmd_start (some "") = [Effect.reply configErrorMsg] ∧
    (osGetenv env miniAppDefault ≠ "" →
      cmd_start env =
        [Effect.replyMarkup welcomeText (startKeyboard (osGetenv env miniAppDefault))]) ∧
    cmd_upload env =
      [Effect.replyMarkup uploadText (uploadKeyboard (osGetenv env miniAppDefault))] ∧
    cmd_report env =
      [Effect.replyMarkup reportText (reportKeyboard (osGetenv env miniAppDefault))] := by
  refine ⟨by decide, fun hne => ?_, rfl, rfl⟩
  unfold cmd_start
  rw [if_neg hne]

/-- Witness for the amended C6: with the variable unset the default URL is
non-empty and the start handler sends the welcome menu. -/
theorem static_handlers_url_check_witness :
    cmd_start none = [Effect.replyMarkup welcomeText (startKeyboard miniAppDefault)] :=
  (static_handlers_url_check none).2.1 (by decide)

/-- C7 counterexample: the `verify_help` button-callback does not produce
the help content — its reply text differs from the one `/help` (and the
`help` button) produce. -/
theorem help_entry_points_counterexample :
    firstReplyText callback_verify_help ≠ firstReplyText cmd_help ∧
    firstReplyText cmd_help = some helpText ∧
    firstReplyText callback_verify_help = some verifyHelpText := by
  refine ⟨by decide, rfl, rfl⟩

/-- C7 amended: the `/help` command and the `help` button-callback both
delegate to the single routine `send_help` and produce the same help
content; the `verify_help` button-callback is a distinct entry point with
its own verify-instructions content, different from the help text. -/
theorem help_entry_points :
    cmd_help = send_help ∧
    callback_help = send_help ++ [Effect.callbackAnswer] ∧
    firstReplyText cmd_help = some helpText ∧
    firstReplyText callback_help = some helpText ∧
    firstReplyText callback_verify_help = some verifyHelpText ∧
    verifyHelpText ≠ helpText :=
  ⟨rfl, rfl, rfl, rfl, rfl, by decide⟩

end RealPNL
